import Mathlib

/-!
# Qubic Withdrawal Service — shallow embedding and verification

This file embeds the `/process-withdrawal` orchestration logic of the
Qubic withdrawal service (src/withdrawal-service.js, and its duplicate
drift variant src/unnamed/part_000, "withdrawal-service (1).js") as pure
Lean functions over an explicit store state, and proves/refutes the
frozen specification claims about it.

Modelling conventions:
* JS numbers (amounts, the 0.55 payout ratio) are modelled as `ℚ`;
  the literal `0.55` is `11/20`.
* The Supabase store is a pair of lists (`withdrawals`, `transactions`);
  `update ... .eq(...)` is a map over the list; `.single()` succeeds
  exactly when the filter matches exactly one row.
* External collaborators (tick endpoint, transfer builder, broadcast
  endpoint) are nondeterministic: their outcomes for one invocation are
  packaged as an `Env` value passed to the orchestrator.  Store update
  calls do not throw in the happy path (the code never checks their
  error results); the compensating update inside the catch handler is
  the one fallible write the claims are about, so `Env` carries a flag
  for its outcome.
* JS falsiness of `0`, `""`, `null`/`undefined` in the `||` and `?.`
  idioms is modelled explicitly (`jsOrNum`, `jsOrNat`, `jsOrStr`).
-/

/-- A row of the `withdrawals` table. -/
structure WithdrawalRecord where
  id : Nat
  user_id : Nat
  to_address : String
  amount : ℚ
  status : String
  tx_hash : Option String
  completed_at : Option String
  deriving Repr, DecidableEq

/-- A row of the `transactions` table. -/
structure TxRecord where
  user_id : Nat
  type : String
  amount : Option ℚ
  status : String
  tx_hash : Option String
  created_at : Nat
  deriving Repr, DecidableEq

/-- The Supabase store state visible to the orchestrator. -/
structure Store where
  withdrawals : List WithdrawalRecord
  transactions : List TxRecord
  deriving Repr, DecidableEq

/-- `lastProcessedTick` object of the network status response. -/
structure TickInfo where
  tickNumber : Nat
  deriving Repr, DecidableEq

/-- JSON body returned by the `status` RPC endpoint; `lastProcessedTick`
may be absent. -/
structure TickData where
  lastProcessedTick : Option TickInfo
  deriving Repr, DecidableEq

/-- Response of the `broadcast-transaction` RPC call (when the HTTP
round-trip itself succeeds): `ok` is `response.ok`, `txId` the optional
field of the JSON body, `errorText` the body text used in the error
message when not ok. -/
structure BroadcastResp where
  ok : Bool
  txId : Option String
  errorText : String
  deriving Repr, DecidableEq

/-- Outcomes of the external collaborators during one invocation of
`processWithdrawal`. `Except.error msg` models a thrown/rejected
promise with `error.message = msg`. -/
structure Env where
  tickFetch : Except String TickData
  buildResult : Except String Unit
  getTxId : Option String
  broadcast : Except String BroadcastResp
  now : String
  compensateResult : Except String Unit
  deriving Repr

/-- JS `a || b` where `a` is a possibly-absent number: `undefined`,
`null` and `0` are falsy. -/
def jsOrNum (a : Option ℚ) (b : ℚ) : ℚ :=
  match a with
  | none => b
  | some n => if n = 0 then b else n

/-- JS `a || b` on a possibly-absent natural number (the tick). -/
def jsOrNat (a : Option Nat) (b : Nat) : Nat :=
  match a with
  | none => b
  | some n => if n = 0 then b else n

/-- JS truthiness of a possibly-absent string: `undefined`, `null` and
`""` are falsy. -/
def strTruthy : Option String → Bool
  | none => false
  | some s => s ≠ ""

/-- JS `a || b` on possibly-absent strings. -/
def jsOrStr (a b : Option String) : Option String :=
  if strTruthy a then a else b

/-- `supabase.from(t).select().eq('id', wid).single()`: succeeds iff
exactly one row matches. -/
def fetchWithdrawal (s : Store) (wid : Nat) : Option WithdrawalRecord :=
  match s.withdrawals.filter (fun w => w.id = wid) with
  | [w] => some w
  | _ => none

/-- `aiMined?.reduce((sum, t) => sum + (t.amount || 0), 0) || 0` over
the rows of `transactions` with `type = 'ai_mining'`. -/
def totalAiMined (s : Store) : ℚ :=
  jsOrNum
    (some ((s.transactions.filter (fun t => t.type = "ai_mining")).foldl
      (fun sum t => sum + jsOrNum t.amount 0) 0))
    0

/-- `totalWithdrawn?.reduce((sum, w) => sum + (w.amount || 0), 0) || 0`
over the rows of `withdrawals` with `status = 'completed'`. -/
def totalWithdrawalAmount (s : Store) : ℚ :=
  jsOrNum
    (some ((s.withdrawals.filter (fun w => w.status = "completed")).foldl
      (fun sum w => sum + jsOrNum (some w.amount) 0) 0))
    0

/-- `availableBalance = totalAiMined * 0.55 - totalWithdrawalAmount`. -/
def availableBalance (s : Store) : ℚ :=
  totalAiMined s * (11 / 20) - totalWithdrawalAmount s

/-- `update({ status: 'failed' }).eq('id', wid)` on `withdrawals`. -/
def markFailed (s : Store) (wid : Nat) : Store :=
  { s with
    withdrawals := s.withdrawals.map fun w =>
      if w.id = wid then { w with status := "failed" } else w }

/-- Predicate of the `transactions` update filter:
`eq('user_id', uid).eq('type', 'withdrawal').is('tx_hash', null)`. -/
def matchesTxUpdate (t : TxRecord) (uid : Nat) : Bool :=
  t.user_id == uid && t.type == "withdrawal" && t.tx_hash == none

/-- Apply `f` to the first list element satisfying `p`. -/
def updateFirstWhere (p : TxRecord → Bool) (f : TxRecord → TxRecord) :
    List TxRecord → List TxRecord
  | [] => []
  | t :: ts => if p t then f t :: ts else t :: updateFirstWhere p f ts

/-- `update({...}).eq('user_id', uid).eq('type','withdrawal')
.is('tx_hash', null).order('created_at', descending).limit(1)`:
update the most recently created matching row, if any. -/
def updateLatestTx (txs : List TxRecord) (uid : Nat)
    (f : TxRecord → TxRecord) : List TxRecord :=
  match ((txs.filter (fun t => matchesTxUpdate t uid)).map
      (fun t => t.created_at)).max? with
  | none => txs
  | some m =>
      updateFirstWhere
        (fun t => matchesTxUpdate t uid && t.created_at == m) f txs

/-- Typed rendering of the HTTP responses `/process-withdrawal` can
send.  `serverError msg` is the 500 body from the catch handler with
the original error message; `unhandledRejection msg` models the drift
variant's catch handler itself rejecting (no response is sent by the
handler, the original error is lost). -/
inductive PWResult where
  | missingId
  | notFound
  | alreadyProcessed (currentStatus : String)
  | insufficientBalance (available : ℚ)
  | success (txHash : Option String)
  | serverError (msg : String)
  | unhandledRejection (msg : String)
  deriving Repr, DecidableEq

/-- Observable outcome of one `processWithdrawal` invocation: the HTTP
response, the final store, whether the broadcast (submit) call was
issued, and the target tick handed to the transfer builder when the
build step was reached. -/
structure PWTrace where
  result : PWResult
  store : Store
  submitAttempted : Bool
  buildTargetTick : Option Nat
  deriving Repr, DecidableEq

/-- The commit step shared by both orchestrator variants (lines 177–196
of src/withdrawal-service.js, lines 119–132 of the variant): set the
withdrawal row to `completed` with the transaction hash and completion
time, then stamp the latest matching `transactions` row. -/
def commitStore (s : Store) (wid : Nat) (txh : Option String) (uid : Nat)
    (now : String) : Store :=
  { withdrawals := s.withdrawals.map fun w =>
      if w.id = wid then
        { w with status := "completed", tx_hash := txh,
                 completed_at := some now }
      else w,
    transactions := updateLatestTx s.transactions uid fun t =>
      { t with status := "completed", tx_hash := txh } }

/-- Catch handler of src/withdrawal-service.js (lines 209–227): try to
mark the withdrawal `failed`; if that update itself rejects, log and
fall through; either way answer 500 with the original error message. -/
def catchHandler (s : Store) (env : Env) (wid : Nat) (msg : String)
    (submitted : Bool) (tick : Option Nat) : PWTrace :=
  match env.compensateResult with
  | .error _ =>
      { result := .serverError msg, store := s,
        submitAttempted := submitted, buildTargetTick := tick }
  | .ok _ =>
      { result := .serverError msg, store := markFailed s wid,
        submitAttempted := submitted, buildTargetTick := tick }

/-- Catch handler of the drift variant src/unnamed/part_000 (lines
145–151): the compensating `update({ status: 'failed' })` is awaited
with no surrounding try/catch, so when it rejects the handler's own
promise rejects with the database error and the 500 response carrying
the original error is never sent. -/
def variantCatchHandler (s : Store) (env : Env) (wid : Nat) (msg : String)
    (submitted : Bool) (tick : Option Nat) : PWTrace :=
  match env.compensateResult with
  | .error dbMsg =>
      { result := .unhandledRejection dbMsg, store := s,
        submitAttempted := submitted, buildTargetTick := tick }
  | .ok _ =>
      { result := .serverError msg, store := markFailed s wid,
        submitAttempted := submitted, buildTargetTick := tick }

/-- The body of `/process-withdrawal` (src/withdrawal-service.js lines
89–207) after the fetched record passed the fetch step: status guard,
balance check, tick acquisition, build, broadcast, commit; any thrown
error is routed to `catchHandler`. `withdrawal` is the row read at
fetch time (the JS local), which may be stale relative to `s`. -/
def afterFetch (s : Store) (env : Env) (wid : Nat)
    (withdrawal : WithdrawalRecord) : PWTrace :=
  if withdrawal.status ≠ "pending" then
    { result := .alreadyProcessed withdrawal.status, store := s,
      submitAttempted := false, buildTargetTick := none }
  else
    let avail := availableBalance s
    if avail < withdrawal.amount then
      { result := .insufficientBalance avail, store := markFailed s wid,
        submitAttempted := false, buildTargetTick := none }
    else
      match env.tickFetch with
      | .error msg => catchHandler s env wid msg false none
      | .ok tickData =>
        let currentTick :=
          jsOrNat (tickData.lastProcessedTick.map (fun t => t.tickNumber)) 0
        let targetTick := currentTick + 20
        match env.buildResult with
        | .error msg => catchHandler s env wid msg false (some targetTick)
        | .ok _ =>
          match env.broadcast with
          | .error msg => catchHandler s env wid msg true (some targetTick)
          | .ok br =>
            if !br.ok then
              catchHandler s env wid ("Broadcast failed: " ++ br.errorText)
                true (some targetTick)
            else
              let txHash := jsOrStr br.txId env.getTxId
              if !strTruthy txHash then
                catchHandler s env wid "No transaction ID returned from broadcast"
                  true (some targetTick)
              else
                { result := .success txHash,
                  store := commitStore s wid txHash withdrawal.user_id env.now,
                  submitAttempted := true, buildTargetTick := some targetTick }

/-- `/process-withdrawal` of src/withdrawal-service.js: fetch the
withdrawal row by id (404 when `.single()` errors or no row), then run
the rest of the handler. -/
def processWithdrawal (s : Store) (env : Env) (wid : Nat) : PWTrace :=
  match fetchWithdrawal s wid with
  | none =>
      { result := .notFound, store := s,
        submitAttempted := false, buildTargetTick := none }
  | some withdrawal => afterFetch s env wid withdrawal

/-- Post-fetch body of the drift variant src/unnamed/part_000 (lines
58–151).  It differs from `afterFetch` in two ways the claims care
about: the commit step applies with whatever `txHash` value was
computed, with no `if (!txHash) throw` guard (lines 117–123), and the
catch handler's compensating update is unguarded
(`variantCatchHandler`). -/
def afterFetchVariant (s : Store) (env : Env) (wid : Nat)
    (withdrawal : WithdrawalRecord) : PWTrace :=
  if withdrawal.status ≠ "pending" then
    { result := .alreadyProcessed withdrawal.status, store := s,
      submitAttempted := false, buildTargetTick := none }
  else
    let avail := availableBalance s
    if avail < withdrawal.amount then
      { result := .insufficientBalance avail, store := markFailed s wid,
        submitAttempted := false, buildTargetTick := none }
    else
      match env.tickFetch with
      | .error msg => variantCatchHandler s env wid msg false none
      | .ok tickData =>
        let currentTick :=
          jsOrNat (tickData.lastProcessedTick.map (fun t => t.tickNumber)) 0
        let targetTick := currentTick + 20
        match env.buildResult with
        | .error msg => variantCatchHandler s env wid msg false (some targetTick)
        | .ok _ =>
          match env.broadcast with
          | .error msg => variantCatchHandler s env wid msg true (some targetTick)
          | .ok br =>
            if !br.ok then
              variantCatchHandler s env wid "Broadcast failed"
                true (some targetTick)
            else
              let txHash := jsOrStr br.txId env.getTxId
              { result := .success txHash,
                store := commitStore s wid txHash withdrawal.user_id env.now,
                submitAttempted := true, buildTargetTick := some targetTick }

/-- `/process-withdrawal` of the drift variant src/unnamed/part_000. -/
def processWithdrawalVariant (s : Store) (env : Env) (wid : Nat) : PWTrace :=
  match fetchWithdrawal s wid with
  | none =>
      { result := .notFound, store := s,
        submitAttempted := false, buildTargetTick := none }
  | some withdrawal => afterFetchVariant s env wid withdrawal

/-- One interleaving of two concurrent `/process-withdrawal` handler
invocations on the same withdrawal id, expressed with the handler's
own pieces: both handlers complete their fetch `await` against the
initial store (each then holds its own copy of the row); invocation A
runs to completion; invocation B then resumes past its fetch, holding
the stale row it read, so its remaining reads and writes act on A's
resulting store. -/
def interleavedRun (s : Store) (envA envB : Env) (wid : Nat) :
    PWTrace × PWTrace :=
  match fetchWithdrawal s wid with
  | none =>
      (processWithdrawal s envA wid, processWithdrawal s envB wid)
  | some w =>
      let trA := processWithdrawal s envA wid
      (trA, afterFetch trA.store envB wid w)

/-- Modelled from the spec (§4.2, §3 invariants), for the refinement
claim about the Balance Calculator: the sum of the amounts of all
accrual-type (`ai_mining`) ledger entries, multiplied by the
payout-share ratio 0.55, minus the sum of the amounts of all
withdrawals in `completed` status; an empty result set contributes a
sum of 0. -/
def specAvailableBalance (s : Store) : ℚ :=
  ((s.transactions.filter (fun t => t.type = "ai_mining")).map
      (fun t => t.amount.getD 0)).sum * (11 / 20) -
    ((s.withdrawals.filter (fun w => w.status = "completed")).map
      (fun w => w.amount)).sum

/-! ## Helper lemmas -/

lemma jsOrNum_some_zero (x : ℚ) : jsOrNum (some x) 0 = x := by
  simp only [jsOrNum]
  split
  · next h => exact h.symm
  · rfl

lemma jsOrNum_getD (a : Option ℚ) : jsOrNum a 0 = a.getD 0 := by
  cases a with
  | none => rfl
  | some x => rw [jsOrNum_some_zero]; rfl

lemma jsOrNat_some_zero (n : Nat) : jsOrNat (some n) 0 = n := by
  simp only [jsOrNat]
  split
  · next h => exact h.symm
  · rfl

lemma foldl_add_sum {α : Type} (f : α → ℚ) :
    ∀ (l : List α) (init : ℚ),
      l.foldl (fun acc a => acc + f a) init = init + (l.map f).sum
  | [], init => by simp
  | a :: l, init => by
      rw [List.foldl_cons, foldl_add_sum f l, List.map_cons, List.sum_cons]
      ring

lemma totalAiMined_eq (s : Store) :
    totalAiMined s =
      ((s.transactions.filter (fun t => t.type = "ai_mining")).map
        (fun t => t.amount.getD 0)).sum := by
  unfold totalAiMined
  rw [jsOrNum_some_zero, foldl_add_sum, zero_add]
  simp only [jsOrNum_getD]

lemma totalWithdrawalAmount_eq (s : Store) :
    totalWithdrawalAmount s =
      ((s.withdrawals.filter (fun w => w.status = "completed")).map
        (fun w => w.amount)).sum := by
  unfold totalWithdrawalAmount
  rw [jsOrNum_some_zero, foldl_add_sum, zero_add]
  simp only [jsOrNum_some_zero]

lemma markFailed_status (s : Store) (wid : Nat) :
    ∀ w' ∈ (markFailed s wid).withdrawals, w'.id = wid → w'.status = "failed" := by
  intro w' hmem hid
  simp only [markFailed, List.mem_map] at hmem
  obtain ⟨w, hw, rfl⟩ := hmem
  by_cases h : w.id = wid
  · simp [h]
  · simp only [if_neg h] at hid ⊢
    exact absurd hid h

lemma commitStore_status (s : Store) (wid : Nat) (txh : Option String)
    (uid : Nat) (now : String) :
    ∀ w' ∈ (commitStore s wid txh uid now).withdrawals,
      w'.id = wid → w'.status = "completed" := by
  intro w' hmem hid
  simp only [commitStore, List.mem_map] at hmem
  obtain ⟨w, hw, rfl⟩ := hmem
  by_cases h : w.id = wid
  · simp [h]
  · simp only [if_neg h] at hid ⊢
    exact absurd hid h

/-! ## Sample data used by counterexamples and witnesses -/

/-- A happy-path environment: tick 500, build succeeds, broadcast
accepted with a transaction id. -/
def okEnv : Env :=
  { tickFetch := .ok ⟨some ⟨500⟩⟩, buildResult := .ok (),
    getTxId := some "LOCALTX", broadcast := .ok ⟨true, some "NETTX", ""⟩,
    now := "2026-01-01T00:00:00.000Z", compensateResult := .ok () }

/-- A pending withdrawal of 100 units for user 7. -/
def pendingRec : WithdrawalRecord :=
  ⟨1, 7, "DESTADDR", 100, "pending", none, none⟩

/-- Store with one pending withdrawal and 1000 units of `ai_mining`
revenue (treasury share 550). -/
def pendingStore : Store :=
  ⟨[pendingRec], [⟨7, "ai_mining", some 1000, "completed", some "M1", 1⟩]⟩

/-- Store whose only withdrawal is already `completed`. -/
def completedStore : Store :=
  ⟨[⟨1, 7, "DESTADDR", 50, "completed", some "TX9", some "t0"⟩], []⟩

/-! ## Claims -/

/-- C2: for every withdrawal record whose status is not `pending`,
`processWithdrawal` returns the AlreadyProcessed failure reporting the
current status, mutates nothing in the store, and never reaches the
submit step. -/
theorem already_processed_no_mutation (s : Store) (env : Env) (wid : Nat)
    (w : WithdrawalRecord) (hfetch : fetchWithdrawal s wid = some w)
    (hst : w.status ≠ "pending") :
    (processWithdrawal s env wid).result = .alreadyProcessed w.status ∧
    (processWithdrawal s env wid).store = s ∧
    (processWithdrawal s env wid).submitAttempted = false := by
  simp [processWithdrawal, hfetch, afterFetch, hst]

/-- Witness for `already_processed_no_mutation` at a concrete store. -/
theorem already_processed_no_mutation_witness :
    (processWithdrawal completedStore okEnv 1).result =
        .alreadyProcessed "completed" ∧
    (processWithdrawal completedStore okEnv 1).store = completedStore := by
  have h := already_processed_no_mutation completedStore okEnv 1
    ⟨1, 7, "DESTADDR", 50, "completed", some "TX9", some "t0"⟩
    (by decide) (by decide)
  exact ⟨h.1, h.2.1⟩

/-- C8: for every withdrawal id with no corresponding record,
`processWithdrawal` fails with NotFound and leaves the entire store
unchanged, without reaching the submit step. -/
theorem not_found_no_mutation (s : Store) (env : Env) (wid : Nat)
    (h : fetchWithdrawal s wid = none) :
    (processWithdrawal s env wid).result = .notFound ∧
    (processWithdrawal s env wid).store = s ∧
    (processWithdrawal s env wid).submitAttempted = false := by
  simp [processWithdrawal, h]

/-- Witness for `not_found_no_mutation`: id 99 is absent. -/
theorem not_found_no_mutation_witness :
    (processWithdrawal pendingStore okEnv 99).result = .notFound ∧
    (processWithdrawal pendingStore okEnv 99).store = pendingStore := by
  have h := not_found_no_mutation pendingStore okEnv 99 (by decide)
  exact ⟨h.1, h.2.1⟩

/-- C4: for every store state the code's available balance equals the
spec's formula — (sum of the amounts of all `ai_mining` ledger
entries) × 0.55 minus (sum of the amounts of all `completed`
withdrawals) — and an empty result set for either query contributes a
sum of 0 rather than an error. -/
theorem balance_calculator_matches_spec (s : Store) :
    availableBalance s = specAvailableBalance s ∧
    (s.transactions.filter (fun t => t.type = "ai_mining") = [] →
      totalAiMined s = 0) ∧
    (s.withdrawals.filter (fun w => w.status = "completed") = [] →
      totalWithdrawalAmount s = 0) := by
  refine ⟨?_, ?_, ?_⟩
  · unfold availableBalance specAvailableBalance
    rw [totalAiMined_eq, totalWithdrawalAmount_eq]
  · intro h
    rw [totalAiMined_eq, h]
    rfl
  · intro h
    rw [totalWithdrawalAmount_eq, h]
    rfl

/-- C5: for every pending withdrawal whose amount exceeds the available
balance, `processWithdrawal` marks the record `failed`, returns the
InsufficientBalance failure carrying the available balance, and never
invokes the broadcast (submit) call. -/
theorem insufficient_balance_marks_failed (s : Store) (env : Env)
    (wid : Nat) (w : WithdrawalRecord)
    (hfetch : fetchWithdrawal s wid = some w)
    (hpend : w.status = "pending")
    (hbal : availableBalance s < w.amount) :
    (processWithdrawal s env wid).result =
        .insufficientBalance (availableBalance s) ∧
    (processWithdrawal s env wid).store = markFailed s wid ∧
    (∀ w' ∈ (processWithdrawal s env wid).store.withdrawals,
      w'.id = wid → w'.status = "failed") ∧
    (processWithdrawal s env wid).submitAttempted = false := by
  simp only [processWithdrawal, hfetch]
  unfold afterFetch
  rw [if_neg (by simp [hpend]), if_pos hbal]
  exact ⟨rfl, rfl, markFailed_status s wid, rfl⟩

/-- Witness for `insufficient_balance_marks_failed`: a 10000-unit
request against an available balance of 550. -/
theorem insufficient_balance_marks_failed_witness :
    (processWithdrawal ⟨[⟨1, 7, "DESTADDR", 10000, "pending", none, none⟩],
        [⟨7, "ai_mining", some 1000, "completed", some "M1", 1⟩]⟩ okEnv 1).result =
      .insufficientBalance 550 ∧
    (processWithdrawal ⟨[⟨1, 7, "DESTADDR", 10000, "pending", none, none⟩],
        [⟨7, "ai_mining", some 1000, "completed", some "M1", 1⟩]⟩ okEnv 1).submitAttempted = false := by
  have h := insufficient_balance_marks_failed
    ⟨[⟨1, 7, "DESTADDR", 10000, "pending", none, none⟩],
      [⟨7, "ai_mining", some 1000, "completed", some "M1", 1⟩]⟩ okEnv 1
    ⟨1, 7, "DESTADDR", 10000, "pending", none, none⟩
    (by decide) (by decide)
    (by norm_num [availableBalance, totalAiMined, totalWithdrawalAmount,
          jsOrNum, List.filter, List.foldl])
  refine ⟨?_, h.2.2.2⟩
  rw [h.1]
  norm_num [availableBalance, totalAiMined, totalWithdrawalAmount,
    jsOrNum, List.filter, List.foldl]

/-- The catch handler answers 500 with the original message in both of
its branches; it never produces a success result. -/
lemma catchHandler_not_success (s : Store) (env : Env) (wid : Nat)
    (msg : String) (sub : Bool) (tick : Option Nat) (tx : Option String) :
    (catchHandler s env wid msg sub tick).result ≠ .success tx := by
  unfold catchHandler
  cases env.compensateResult <;> simp

/-- Environment where the broadcast call returns a non-success
response with body `rejected`. -/
def broadcastFailEnv : Env :=
  { tickFetch := .ok ⟨some ⟨500⟩⟩, buildResult := .ok (),
    getTxId := some "LOCALTX", broadcast := .ok ⟨false, none, "rejected"⟩,
    now := "2026-01-01T00:00:00.000Z", compensateResult := .ok () }

/-- C1 counterexample: on a pending withdrawal with sufficient balance,
a non-success broadcast response makes `processWithdrawal` return the
broadcast failure, but the record does NOT stay `pending` — the catch
handler rewrites its status to `failed`, so the id is no longer
retryable. -/
theorem broadcast_failure_mutates_status :
    (processWithdrawal pendingStore broadcastFailEnv 1).result =
        .serverError ("Broadcast failed: " ++ "rejected") ∧
    (processWithdrawal pendingStore broadcastFailEnv 1).store.withdrawals =
        [⟨1, 7, "DESTADDR", 100, "failed", none, none⟩] := by
  norm_num [processWithdrawal, fetchWithdrawal, afterFetch, catchHandler,
    markFailed, availableBalance, totalAiMined, totalWithdrawalAmount,
    jsOrNum, jsOrNat, pendingStore, pendingRec, broadcastFailEnv,
    List.filter, List.foldl]

/-- C1 (amended): when the build step raises or the broadcast response
is non-success, `processWithdrawal` reports the error as a 500 and — in
contrast to the claim — mutates the record: the catch handler's
compensating update (assumed here to succeed) sets its status to
`failed`, so the withdrawal does not remain `pending`. -/
theorem build_or_broadcast_failure_marks_failed (s : Store) (env : Env)
    (wid : Nat) (w : WithdrawalRecord) (td : TickData)
    (hfetch : fetchWithdrawal s wid = some w)
    (hpend : w.status = "pending")
    (hbal : ¬ availableBalance s < w.amount)
    (htick : env.tickFetch = Except.ok td)
    (hcomp : env.compensateResult = Except.ok ())
    (hfail : (∃ m, env.buildResult = Except.error m) ∨
             (∃ br, env.broadcast = Except.ok br ∧ br.ok = false)) :
    (∃ m, (processWithdrawal s env wid).result = PWResult.serverError m) ∧
    (processWithdrawal s env wid).store = markFailed s wid ∧
    ∀ w' ∈ (processWithdrawal s env wid).store.withdrawals,
      w'.id = wid → w'.status = "failed" := by
  have key : ∃ m sub tick,
      processWithdrawal s env wid = catchHandler s env wid m sub tick := by
    simp only [processWithdrawal, hfetch, afterFetch, htick]
    rw [if_neg (by simp [hpend]), if_neg hbal]
    rcases hfail with ⟨m, hm⟩ | ⟨br, hbr, hok⟩
    · simp only [hm]
      exact ⟨m, false, _, rfl⟩
    · cases hb : env.buildResult with
      | error m =>
          simp only [hb]
          exact ⟨m, false, _, rfl⟩
      | ok u =>
          simp only [hb, hbr, hok, Bool.not_false, if_true]
          exact ⟨_, true, _, rfl⟩
  obtain ⟨m, sub, tick, heq⟩ := key
  rw [heq]
  unfold catchHandler
  rw [hcomp]
  exact ⟨⟨m, rfl⟩, rfl, markFailed_status s wid⟩

/-- Environment where the transfer build step throws. -/
def buildFailEnv : Env :=
  { tickFetch := .ok ⟨some ⟨500⟩⟩, buildResult := .error "build exploded",
    getTxId := none, broadcast := .ok ⟨true, some "NETTX", ""⟩,
    now := "2026-01-01T00:00:00.000Z", compensateResult := .ok () }

/-- Witness for `build_or_broadcast_failure_marks_failed` at a concrete
store and a failing build step. -/
theorem build_or_broadcast_failure_marks_failed_witness :
    (∃ m, (processWithdrawal pendingStore buildFailEnv 1).result =
        PWResult.serverError m) ∧
    (processWithdrawal pendingStore buildFailEnv 1).store =
        markFailed pendingStore 1 := by
  have h := build_or_broadcast_failure_marks_failed pendingStore buildFailEnv
    1 pendingRec ⟨some ⟨500⟩⟩ (by decide) (by decide)
    (by norm_num [availableBalance, totalAiMined, totalWithdrawalAmount,
          jsOrNum, pendingStore, pendingRec, List.filter, List.foldl])
    rfl rfl (Or.inl ⟨"build exploded", rfl⟩)
  exact ⟨h.1, h.2.1⟩

/-- Helper for the target-tick claim, stated on the post-fetch body. -/
lemma afterFetch_target_tick (s : Store) (env : Env) (wid n : Nat)
    (w : WithdrawalRecord) (td : TickData) (tx : Option String)
    (htick : env.tickFetch = Except.ok td)
    (hn : td.lastProcessedTick = some ⟨n⟩)
    (hsucc : (afterFetch s env wid w).result = .success tx) :
    (afterFetch s env wid w).buildTargetTick = some (n + 20) := by
  unfold afterFetch at hsucc ⊢
  by_cases hw : w.status ≠ "pending"
  · rw [if_pos hw] at hsucc
    simp at hsucc
  · rw [if_neg hw] at hsucc ⊢
    by_cases hb : availableBalance s < w.amount
    · rw [if_pos hb] at hsucc
      simp at hsucc
    · rw [if_neg hb] at hsucc ⊢
      simp only [htick] at hsucc ⊢
      cases hbuild : env.buildResult with
      | error m =>
          simp only [hbuild] at hsucc
          exact absurd hsucc (catchHandler_not_success _ _ _ _ _ _ _)
      | ok u =>
          simp only [hbuild] at hsucc ⊢
          cases hbc : env.broadcast with
          | error m =>
              simp only [hbc] at hsucc
              exact absurd hsucc (catchHandler_not_success _ _ _ _ _ _ _)
          | ok br =>
              simp only [hbc] at hsucc ⊢
              by_cases hok : !br.ok
              · rw [if_pos hok] at hsucc
                exact absurd hsucc (catchHandler_not_success _ _ _ _ _ _ _)
              · rw [if_neg hok] at hsucc ⊢
                by_cases htx : !strTruthy (jsOrStr br.txId env.getTxId)
                · rw [if_pos htx] at hsucc
                  exact absurd hsucc (catchHandler_not_success _ _ _ _ _ _ _)
                · rw [if_neg htx]
                  simp [hn, jsOrNat_some_zero]

/-- C9: on every invocation that ends in a successful broadcast, the
target tick handed to the transfer builder is the tick number read from
the network-status response during that same invocation, plus the fixed
offset 20. -/
theorem target_tick_is_current_plus_twenty (s : Store) (env : Env)
    (wid n : Nat) (td : TickData) (tx : Option String)
    (htick : env.tickFetch = Except.ok td)
    (hn : td.lastProcessedTick = some ⟨n⟩)
    (hsucc : (processWithdrawal s env wid).result = .success tx) :
    (processWithdrawal s env wid).buildTargetTick = some (n + 20) := by
  cases hf : fetchWithdrawal s wid with
  | none =>
      simp [processWithdrawal, hf] at hsucc
  | some w =>
      simp only [processWithdrawal, hf] at hsucc ⊢
      exact afterFetch_target_tick s env wid n w td tx htick hn hsucc

/-- Witness for `target_tick_is_current_plus_twenty`: with tick 500 the
builder receives target tick 520. -/
theorem target_tick_is_current_plus_twenty_witness :
    (processWithdrawal pendingStore okEnv 1).buildTargetTick =
      some (500 + 20) :=
  target_tick_is_current_plus_twenty pendingStore okEnv 1 500
    ⟨some ⟨500⟩⟩ (some "NETTX") rfl rfl
    (by norm_num [processWithdrawal, fetchWithdrawal, afterFetch, commitStore,
          availableBalance, totalAiMined, totalWithdrawalAmount, jsOrNum,
          jsOrNat, jsOrStr, strTruthy, updateLatestTx, matchesTxUpdate,
          updateFirstWhere, pendingStore, pendingRec, okEnv,
          List.filter, List.foldl, List.map]
        all_goals decide)

/-- C10: when the network-status response carries no usable tick
(`lastProcessedTick` absent or tick number 0), `processWithdrawal` does
not fail: the current tick silently defaults to 0, the builder is
invoked with target tick exactly 20, the transfer is broadcast, and on
a successful broadcast the record is marked `completed`. -/
theorem missing_tick_defaults_to_twenty (s : Store) (env : Env) (wid : Nat)
    (w : WithdrawalRecord) (td : TickData) (br : BroadcastResp) (tx : String)
    (hfetch : fetchWithdrawal s wid = some w)
    (hpend : w.status = "pending")
    (hbal : ¬ availableBalance s < w.amount)
    (htick : env.tickFetch = Except.ok td)
    (hmiss : td.lastProcessedTick = none ∨ td.lastProcessedTick = some ⟨0⟩)
    (hbuild : env.buildResult = Except.ok ())
    (hbc : env.broadcast = Except.ok br)
    (hok : br.ok = true)
    (htx : br.txId = some tx)
    (htxne : tx ≠ "") :
    (processWithdrawal s env wid).buildTargetTick = some 20 ∧
    (processWithdrawal s env wid).result = .success (some tx) ∧
    (processWithdrawal s env wid).submitAttempted = true ∧
    ∀ w' ∈ (processWithdrawal s env wid).store.withdrawals,
      w'.id = wid → w'.status = "completed" := by
  have hct : jsOrNat (td.lastProcessedTick.map (fun t => t.tickNumber)) 0 = 0 := by
    rcases hmiss with h | h <;> simp [h, jsOrNat]
  have hjs : jsOrStr br.txId env.getTxId = some tx := by
    rw [htx]
    simp [jsOrStr, strTruthy, htxne]
  have hstx : strTruthy (some tx) = true := by
    simp [strTruthy, htxne]
  have htr : processWithdrawal s env wid =
      { result := .success (some tx),
        store := commitStore s wid (some tx) w.user_id env.now,
        submitAttempted := true, buildTargetTick := some 20 } := by
    simp only [processWithdrawal, hfetch, afterFetch, htick, hbuild, hbc]
    rw [if_neg (fun h => h hpend), if_neg hbal]
    simp [hok, hjs, hstx, hct]
  rw [htr]
  exact ⟨rfl, rfl, rfl, commitStore_status s wid (some tx) w.user_id env.now⟩

/-- Environment whose network-status response has no
`lastProcessedTick` at all. -/
def noTickEnv : Env :=
  { tickFetch := .ok ⟨none⟩, buildResult := .ok (),
    getTxId := none, broadcast := .ok ⟨true, some "NETTX", ""⟩,
    now := "2026-01-01T00:00:00.000Z", compensateResult := .ok () }

/-- Witness for `missing_tick_defaults_to_twenty`. -/
theorem missing_tick_defaults_to_twenty_witness :
    (processWithdrawal pendingStore noTickEnv 1).buildTargetTick = some 20 ∧
    (processWithdrawal pendingStore noTickEnv 1).result =
      .success (some "NETTX") := by
  have h := missing_tick_defaults_to_twenty pendingStore noTickEnv 1
    pendingRec ⟨none⟩ ⟨true, some "NETTX", ""⟩ "NETTX"
    (by decide) (by decide)
    (by norm_num [availableBalance, totalAiMined, totalWithdrawalAmount,
          jsOrNum, pendingStore, pendingRec, List.filter, List.foldl])
    rfl (Or.inl rfl) rfl rfl rfl rfl (by decide)
  exact ⟨h.1, h.2.1⟩

/-- Environment of the first racing invocation: broadcast accepted with
transaction id `TXA`. -/
def raceEnvA : Env :=
  { tickFetch := .ok ⟨some ⟨500⟩⟩, buildResult := .ok (),
    getTxId := none, broadcast := .ok ⟨true, some "TXA", ""⟩,
    now := "tA", compensateResult := .ok () }

/-- Environment of the second racing invocation: broadcast accepted
with transaction id `TXB`. -/
def raceEnvB : Env :=
  { tickFetch := .ok ⟨some ⟨501⟩⟩, buildResult := .ok (),
    getTxId := none, broadcast := .ok ⟨true, some "TXB", ""⟩,
    now := "tB", compensateResult := .ok () }

/-- C3: the status guard is a read-then-act check with no atomic
conditional update, so in the interleaving where both concurrent
invocations fetch the same pending row before either one writes, BOTH
pass the guard and BOTH reach the submit (broadcast) step; the second
one transitions the already-completed record to `completed` a second
time, overwriting the transaction hash. -/
theorem concurrent_invocations_both_submit :
    (interleavedRun pendingStore raceEnvA raceEnvB 1).1.submitAttempted = true ∧
    (interleavedRun pendingStore raceEnvA raceEnvB 1).2.submitAttempted = true ∧
    (interleavedRun pendingStore raceEnvA raceEnvB 1).1.result =
      .success (some "TXA") ∧
    (interleavedRun pendingStore raceEnvA raceEnvB 1).2.result =
      .success (some "TXB") ∧
    (interleavedRun pendingStore raceEnvA raceEnvB 1).1.store.withdrawals =
      [⟨1, 7, "DESTADDR", 100, "completed", some "TXA", some "tA"⟩] ∧
    (interleavedRun pendingStore raceEnvA raceEnvB 1).2.store.withdrawals =
      [⟨1, 7, "DESTADDR", 100, "completed", some "TXB", some "tB"⟩] := by
  norm_num [interleavedRun, processWithdrawal, fetchWithdrawal, afterFetch,
    commitStore, availableBalance, totalAiMined, totalWithdrawalAmount,
    jsOrNum, jsOrNat, jsOrStr, strTruthy, updateLatestTx, matchesTxUpdate,
    updateFirstWhere, pendingStore, pendingRec, raceEnvA, raceEnvB,
    List.filter, List.foldl, List.map]
  all_goals decide

/-- Environment where the broadcast is accepted but returns no
transaction id, and the local transaction object yields none either. -/
def noTxIdEnv : Env :=
  { tickFetch := .ok ⟨some ⟨500⟩⟩, buildResult := .ok (),
    getTxId := none, broadcast := .ok ⟨true, none, ""⟩,
    now := "t1", compensateResult := .ok () }

/-- C6: the drift variant commits `status = 'completed'` with a null
`tx_hash` when neither the broadcast response nor the local transaction
object yields an id — it lacks the `if (!txHash) throw` guard — whereas
the primary orchestrator throws on the same input and marks the record
`failed` instead of `completed`. -/
theorem variant_completes_with_null_txhash :
    (processWithdrawalVariant pendingStore noTxIdEnv 1).result =
      .success none ∧
    (processWithdrawalVariant pendingStore noTxIdEnv 1).store.withdrawals =
      [⟨1, 7, "DESTADDR", 100, "completed", none, some "t1"⟩] ∧
    (processWithdrawal pendingStore noTxIdEnv 1).result =
      .serverError "No transaction ID returned from broadcast" ∧
    (processWithdrawal pendingStore noTxIdEnv 1).store.withdrawals =
      [⟨1, 7, "DESTADDR", 100, "failed", none, none⟩] := by
  norm_num [processWithdrawalVariant, afterFetchVariant, processWithdrawal,
    fetchWithdrawal, afterFetch, catchHandler, variantCatchHandler,
    commitStore, markFailed, availableBalance, totalAiMined,
    totalWithdrawalAmount, jsOrNum, jsOrNat, jsOrStr, strTruthy,
    updateLatestTx, matchesTxUpdate, updateFirstWhere, pendingStore,
    pendingRec, noTxIdEnv, List.filter, List.foldl, List.map]

/-- Environment where the build step throws and the compensating
status update in the catch handler rejects as well. -/
def compFailEnv : Env :=
  { tickFetch := .ok ⟨some ⟨500⟩⟩, buildResult := .error "Builder exploded",
    getTxId := none, broadcast := .ok ⟨true, some "X", ""⟩,
    now := "t1", compensateResult := .error "db connection lost" }

/-- C7: when the compensating `failed`-status update itself rejects,
the primary orchestrator logs it and still answers 500 with the
original error, but the drift variant — whose compensating update has
no surrounding try/catch — propagates the database error instead, so
the original error never reaches the caller. -/
theorem variant_compensation_masks_original_error :
    (processWithdrawal pendingStore compFailEnv 1).result =
      .serverError "Builder exploded" ∧
    (processWithdrawalVariant pendingStore compFailEnv 1).result =
      .unhandledRejection "db connection lost" := by
  norm_num [processWithdrawalVariant, afterFetchVariant, processWithdrawal,
    fetchWithdrawal, afterFetch, catchHandler, variantCatchHandler,
    markFailed, availableBalance, totalAiMined, totalWithdrawalAmount,
    jsOrNum, jsOrNat, jsOrStr, strTruthy, pendingStore, pendingRec,
    compFailEnv, List.filter, List.foldl, List.map]
